import Mathlib

/-!
# Verification of `init-odkx-sync-endpoint.py`

A shallow embedding of the ODK-X sync-endpoint first-run installer script.

Python strings are modelled as lists of code points (`PyStr := List Nat`).
Files are modelled the way the script reads them: as the list of raw lines
produced by iterating over the file, each line keeping its trailing newline
code point (the last line of a file may lack it).  The interactive flow is
modelled as a function from the environment (results of the external
commands), the relevant file-system state, and the finite list of console
inputs (exhaustion of the list corresponds to `EOFError` from `input()`) to
the trace of externally visible actions and the way the process ends.
-/

set_option linter.unusedVariables false

/-- Python strings as lists of Unicode code points. -/
abbrev PyStr := List Nat

/-- Code-point list of a string literal (for writing concrete `PyStr`s). -/
def String.py (s : String) : PyStr := s.data.map Char.toNat

/-- `s.startswith(pre)` from Python, on code-point lists. -/
def startswith : PyStr → PyStr → Bool
  | [], _ => true
  | _ :: _, [] => false
  | a :: pre, b :: s => a == b && startswith pre s

/-- ASCII whitespace, as recognised by Python's `str.strip()`. -/
def isWs (c : Nat) : Bool :=
  c == 32 || c == 9 || c == 10 || c == 13 || c == 11 || c == 12

/-- Python `str.strip()`: drop whitespace from both ends. -/
def pyStrip (s : PyStr) : PyStr :=
  ((s.dropWhile isWs).reverse.dropWhile isWs).reverse

/-- Lower-case one ASCII code point, as Python `str.lower()` does on ASCII. -/
def lowerOne (c : Nat) : Nat :=
  if 65 ≤ c && c ≤ 90 then c + 32 else c

/-- Python `str.lower()` (restricted to its ASCII action). -/
def pyLower (s : PyStr) : PyStr := s.map lowerOne

/-! ## Config Store Accessor: `parse_env_file` and `write_to_env_file` -/

/-- One iteration of the loop in `parse_env_file`: the two `if
line.startswith(...)` updates of the `domain`/`email` accumulators;
`line[13:]`/`line[18:]` drop the key prefix and `.strip()` removes the
trailing newline and surrounding whitespace. -/
def parse_step (acc : Option PyStr × Option PyStr) (line : PyStr) :
    Option PyStr × Option PyStr :=
  let acc := if startswith ("HTTPS_DOMAIN=".py) line
    then (some (pyStrip (line.drop 13)), acc.2) else acc
  if startswith ("HTTPS_ADMIN_EMAIL=".py) line
    then (acc.1, some (pyStrip (line.drop 18))) else acc

/-- `parse_env_file`: scan the lines, remember the last value of each key,
substitute the defaults `localhost` / `admin@example.com` for a key that
never occurred. -/
def parse_env_file (lines : List PyStr) : PyStr × PyStr :=
  let acc := lines.foldl parse_step (none, none)
  (acc.1.getD ("localhost".py), acc.2.getD ("admin@example.com".py))

/-- The body of the write loop of `write_to_env_file`: a line starting with
`HTTPS_DOMAIN=` is reassigned to the fresh domain line, then (on the
possibly reassigned line, exactly as in the source) a line starting with
`HTTPS_ADMIN_EMAIL=` is reassigned to the fresh email line. -/
def write_line (domain_name email line : PyStr) : PyStr :=
  let line := if startswith ("HTTPS_DOMAIN=".py) line
    then "HTTPS_DOMAIN=".py ++ domain_name ++ "\n".py else line
  if startswith ("HTTPS_ADMIN_EMAIL=".py) line
    then "HTTPS_ADMIN_EMAIL=".py ++ email ++ "\n".py else line

/-- `write_to_env_file`: rewrite every line through `write_line`, keeping
the line sequence otherwise intact. -/
def write_to_env_file (lines : List PyStr) (domain_name email : PyStr) :
    List PyStr :=
  lines.map (write_line domain_name email)

example :
    parse_env_file (["HTTPS_DOMAIN=example.org".py]) =
      ("example.org".py, "admin@example.com".py) := by decide

example :
    (parse_env_file (write_to_env_file [] ("foo.org".py) ("a@b.c".py))).1 =
      "localhost".py := by decide

example :
    parse_env_file (write_to_env_file
        (["HTTPS_DOMAIN=old\n".py, "OTHER=1\n".py]) ("foo.org".py) ("a@b.c".py)) =
      ("foo.org".py, "admin@example.com".py) := by decide

/-! ## Helper lemmas about the string primitives -/

lemma isWs_lowerOne (c : Nat) : isWs (lowerOne c) = isWs c := by
  unfold lowerOne isWs
  split
  · rename_i h
    simp only [Bool.and_eq_true, decide_eq_true_eq] at h
    have l : (c + 32 == 32 || c + 32 == 9 || c + 32 == 10 || c + 32 == 13 ||
        c + 32 == 11 || c + 32 == 12) = false := by
      simp only [Bool.or_eq_false_iff, beq_eq_false_iff_ne, ne_eq]
      omega
    have r : (c == 32 || c == 9 || c == 10 || c == 13 || c == 11 || c == 12) = false := by
      simp only [Bool.or_eq_false_iff, beq_eq_false_iff_ne, ne_eq]
      omega
    rw [l, r]
  · rfl

lemma pyLower_pyStrip (s : PyStr) : pyStrip (pyLower s) = pyLower (pyStrip s) := by
  have hfun : (isWs ∘ lowerOne) = isWs := funext isWs_lowerOne
  unfold pyStrip pyLower
  rw [List.dropWhile_map, hfun, ← List.map_reverse, List.dropWhile_map, hfun,
    ← List.map_reverse]

lemma startswith_self_append (p x : PyStr) : startswith p (p ++ x) = true := by
  induction p with
  | nil => rfl
  | cons a p ih => simp [startswith, ih]

lemma domKey_eq :
    "HTTPS_DOMAIN=".py = [72, 84, 84, 80, 83, 95, 68, 79, 77, 65, 73, 78, 61] := by
  decide

lemma emailKey_eq :
    "HTTPS_ADMIN_EMAIL=".py =
      [72, 84, 84, 80, 83, 95, 65, 68, 77, 73, 78, 95, 69, 77, 65, 73, 76, 61] := by
  decide

lemma email_not_prefix_dom (x : PyStr) :
    startswith ("HTTPS_ADMIN_EMAIL=".py) ("HTTPS_DOMAIN=".py ++ x) = false := by
  rw [domKey_eq, emailKey_eq]
  simp [startswith]

lemma dom_not_prefix_email (x : PyStr) :
    startswith ("HTTPS_DOMAIN=".py) ("HTTPS_ADMIN_EMAIL=".py ++ x) = false := by
  rw [domKey_eq, emailKey_eq]
  simp [startswith]

lemma pyStrip_append_nl (d : PyStr) (h : pyStrip d = d) :
    pyStrip (d ++ "\n".py) = d := by
  have hnl : "\n".py = [10] := by decide
  by_cases hd : d.dropWhile isWs = []
  · have hdnil : d = [] := by
      have h2 := h
      unfold pyStrip at h2
      rw [hd] at h2
      simpa using h2.symm
    subst hdnil; decide
  · unfold pyStrip
    rw [hnl, List.dropWhile_append, if_neg (by simpa using hd)]
    rw [List.reverse_append]
    have h10 : List.dropWhile isWs ([10].reverse ++ (d.dropWhile isWs).reverse) =
        List.dropWhile isWs (d.dropWhile isWs).reverse := by
      simp [List.dropWhile_cons, isWs]
    rw [h10]
    unfold pyStrip at h
    exact h

/-! ## Characterisations of `write_line` and `parse_step` -/

lemma write_line_dom (d e l : PyStr)
    (h : startswith ("HTTPS_DOMAIN=".py) l = true) :
    write_line d e l = "HTTPS_DOMAIN=".py ++ (d ++ "\n".py) := by
  simp [write_line, h, email_not_prefix_dom, List.append_assoc]

lemma write_line_email (d e l : PyStr)
    (h1 : startswith ("HTTPS_DOMAIN=".py) l = false)
    (h2 : startswith ("HTTPS_ADMIN_EMAIL=".py) l = true) :
    write_line d e l = "HTTPS_ADMIN_EMAIL=".py ++ (e ++ "\n".py) := by
  simp [write_line, h1, h2, List.append_assoc]

lemma write_line_other (d e l : PyStr)
    (h1 : startswith ("HTTPS_DOMAIN=".py) l = false)
    (h2 : startswith ("HTTPS_ADMIN_EMAIL=".py) l = false) :
    write_line d e l = l := by
  simp [write_line, h1, h2]

lemma parse_step_dom_line (acc : Option PyStr × Option PyStr) (d : PyStr) :
    parse_step acc ("HTTPS_DOMAIN=".py ++ (d ++ "\n".py)) =
      (some (pyStrip (d ++ "\n".py)), acc.2) := by
  have hdrop : List.drop 13 ("HTTPS_DOMAIN=".py ++ (d ++ "\n".py)) = d ++ "\n".py :=
    List.drop_left' (by decide)
  simp [parse_step, startswith_self_append, email_not_prefix_dom, hdrop]

lemma parse_step_email_line (acc : Option PyStr × Option PyStr) (e : PyStr) :
    parse_step acc ("HTTPS_ADMIN_EMAIL=".py ++ (e ++ "\n".py)) =
      (acc.1, some (pyStrip (e ++ "\n".py))) := by
  have hdrop : List.drop 18 ("HTTPS_ADMIN_EMAIL=".py ++ (e ++ "\n".py)) = e ++ "\n".py :=
    List.drop_left' (by decide)
  simp [parse_step, startswith_self_append, dom_not_prefix_email, hdrop]

lemma parse_step_fst_no_dom (acc : Option PyStr × Option PyStr) (l : PyStr)
    (h : startswith ("HTTPS_DOMAIN=".py) l = false) :
    (parse_step acc l).1 = acc.1 := by
  simp only [parse_step, h]
  split <;> rfl

lemma parse_step_snd_no_email (acc : Option PyStr × Option PyStr) (l : PyStr)
    (h : startswith ("HTTPS_ADMIN_EMAIL=".py) l = false) :
    (parse_step acc l).2 = acc.2 := by
  simp only [parse_step, h, Bool.false_eq_true, if_false]
  split <;> rfl

/-! ## Round-trip facts about the config store -/

lemma parse_fold_dom_stays (d e : PyStr) (hd : pyStrip d = d) :
    ∀ (ls : List PyStr) (b : Option PyStr),
      ((ls.map (write_line d e)).foldl parse_step (some d, b)).1 = some d := by
  intro ls
  induction ls with
  | nil => intro b; rfl
  | cons l ls ih =>
    intro b
    simp only [List.map_cons, List.foldl_cons]
    cases hdm : startswith ("HTTPS_DOMAIN=".py) l with
    | true =>
      rw [write_line_dom d e l hdm, parse_step_dom_line, pyStrip_append_nl d hd]
      exact ih b
    | false =>
      cases hem : startswith ("HTTPS_ADMIN_EMAIL=".py) l with
      | true =>
        rw [write_line_email d e l hdm hem, parse_step_email_line]
        exact ih _
      | false =>
        rw [write_line_other d e l hdm hem]
        have hfst := parse_step_fst_no_dom (some d, b) l hdm
        rcases hstep : parse_step (some d, b) l with ⟨a', b'⟩
        rw [hstep] at hfst
        simp only at hfst
        rw [hfst]
        exact ih b'

lemma parse_fold_dom_found (d e : PyStr) (hd : pyStrip d = d) :
    ∀ (ls : List PyStr) (a b : Option PyStr),
      (∃ l ∈ ls, startswith ("HTTPS_DOMAIN=".py) l = true) →
      ((ls.map (write_line d e)).foldl parse_step (a, b)).1 = some d := by
  intro ls
  induction ls with
  | nil => intro a b h; simp at h
  | cons l ls ih =>
    intro a b h
    simp only [List.map_cons, List.foldl_cons]
    cases hdm : startswith ("HTTPS_DOMAIN=".py) l with
    | true =>
      rw [write_line_dom d e l hdm, parse_step_dom_line, pyStrip_append_nl d hd]
      exact parse_fold_dom_stays d e hd ls _
    | false =>
      have hls : ∃ l2 ∈ ls, startswith ("HTTPS_DOMAIN=".py) l2 = true := by
        rcases h with ⟨l0, hmem, hsw⟩
        rcases List.mem_cons.1 hmem with rfl | hmem2
        · rw [hdm] at hsw; exact absurd hsw (by simp)
        · exact ⟨l0, hmem2, hsw⟩
      rcases hstep : parse_step (a, b) (write_line d e l) with ⟨a', b'⟩
      exact ih a' b' hls

/-- C2: writing a domain into a config file that mentions the
`HTTPS_DOMAIN` key and reading the file back returns exactly that domain
(the amended form: the file must already contain an `HTTPS_DOMAIN=` line,
and the domain must carry no surrounding whitespace and no newline). -/
theorem C2_roundtrip_amended (lines : List PyStr) (d e : PyStr)
    (hmem : ∃ l ∈ lines, startswith ("HTTPS_DOMAIN=".py) l = true)
    (hd : pyStrip d = d) (hnl : (10 : Nat) ∉ d) :
    (parse_env_file (write_to_env_file lines d e)).1 = d := by
  simp only [parse_env_file, write_to_env_file]
  rw [parse_fold_dom_found d e hd lines none none hmem]
  rfl

/-- C2 witness: a concrete instantiation of the amended round trip. -/
theorem C2_roundtrip_amended_witness :
    (parse_env_file (write_to_env_file (["HTTPS_DOMAIN=old\n".py])
      ("foo.org".py) ("a@b.c".py))).1 = "foo.org".py :=
  C2_roundtrip_amended _ _ _ ⟨"HTTPS_DOMAIN=old\n".py, by decide, by decide⟩
    (by decide) (by decide)

/-- C2 counterexample: on a config file with no `HTTPS_DOMAIN=` line (here
the empty file) the write operation adds nothing, so reading back returns
the default `localhost`, not the written domain `foo.org`. -/
theorem C2_roundtrip_counterexample :
    (parse_env_file (write_to_env_file [] ("foo.org".py) ("a@b.c".py))).1 =
        "localhost".py
    ∧ (parse_env_file (write_to_env_file [] ("foo.org".py) ("a@b.c".py))).1 ≠
        "foo.org".py := by
  decide

lemma parse_fold_no_dom :
    ∀ (ls : List PyStr) (a b : Option PyStr),
      (∀ l ∈ ls, startswith ("HTTPS_DOMAIN=".py) l = false) →
      (ls.foldl parse_step (a, b)).1 = a := by
  intro ls
  induction ls with
  | nil => intro a b h; rfl
  | cons l ls ih =>
    intro a b h
    simp only [List.foldl_cons]
    rcases hstep : parse_step (a, b) l with ⟨a', b'⟩
    have hfst := parse_step_fst_no_dom (a, b) l (h l (by simp))
    rw [hstep] at hfst
    simp only at hfst
    rw [hfst]
    exact ih a b' (fun l2 hl2 => h l2 (by simp [hl2]))

lemma parse_fold_no_email :
    ∀ (ls : List PyStr) (a b : Option PyStr),
      (∀ l ∈ ls, startswith ("HTTPS_ADMIN_EMAIL=".py) l = false) →
      (ls.foldl parse_step (a, b)).2 = b := by
  intro ls
  induction ls with
  | nil => intro a b h; rfl
  | cons l ls ih =>
    intro a b h
    simp only [List.foldl_cons]
    rcases hstep : parse_step (a, b) l with ⟨a', b'⟩
    have hsnd := parse_step_snd_no_email (a, b) l (h l (by simp))
    rw [hstep] at hsnd
    simp only at hsnd
    rw [hsnd]
    exact ih a' b (fun l2 hl2 => h l2 (by simp [hl2]))

/-- C5: `parse_env_file` substitutes the default domain `localhost` when no
line carries the `HTTPS_DOMAIN=` key and the default email
`admin@example.com` when no line carries the `HTTPS_ADMIN_EMAIL=` key; in
particular a file containing only `HTTPS_DOMAIN=example.org` parses to
`(example.org, admin@example.com)`.  (The function is total on every
readable file: in the source, the only exception it can propagate is the
failure to open or read the file itself.) -/
theorem C5_parse_defaults :
    (∀ lines : List PyStr,
      (∀ l ∈ lines, startswith ("HTTPS_DOMAIN=".py) l = false) →
      (parse_env_file lines).1 = "localhost".py)
  ∧ (∀ lines : List PyStr,
      (∀ l ∈ lines, startswith ("HTTPS_ADMIN_EMAIL=".py) l = false) →
      (parse_env_file lines).2 = "admin@example.com".py)
  ∧ parse_env_file (["HTTPS_DOMAIN=example.org".py]) =
      ("example.org".py, "admin@example.com".py) := by
  refine ⟨fun lines h => ?_, fun lines h => ?_, by decide⟩
  · simp only [parse_env_file]
    rw [parse_fold_no_dom lines none none h]
    rfl
  · simp only [parse_env_file]
    rw [parse_fold_no_email lines none none h]
    rfl

/-- C5 witness: the defaults at two concrete files. -/
theorem C5_parse_defaults_witness :
    (parse_env_file (["OTHER=1\n".py])).1 = "localhost".py
  ∧ (parse_env_file (["HTTPS_DOMAIN=example.org\n".py])).2 = "admin@example.com".py :=
  ⟨C5_parse_defaults.1 (["OTHER=1\n".py]) (by decide),
   C5_parse_defaults.2.1 (["HTTPS_DOMAIN=example.org\n".py]) (by decide)⟩

/-- C6: `write_to_env_file` keeps the number and order of the lines (it is
a per-line rewrite), and reproduces verbatim, at its original position,
every line that does not begin with `HTTPS_DOMAIN=` or
`HTTPS_ADMIN_EMAIL=`. -/
theorem C6_write_frame (lines : List PyStr) (d e : PyStr) (i : Nat) :
    (write_to_env_file lines d e).length = lines.length
  ∧ (∀ l, lines[i]? = some l →
      startswith ("HTTPS_DOMAIN=".py) l = false →
      startswith ("HTTPS_ADMIN_EMAIL=".py) l = false →
      (write_to_env_file lines d e)[i]? = some l) := by
  constructor
  · simp [write_to_env_file]
  · intro l hl h1 h2
    simp only [write_to_env_file, List.getElem?_map, hl]
    simp [write_line_other d e l h1 h2]

/-- C6 witness: a comment line and a blank line survive a write verbatim. -/
theorem C6_write_frame_witness :
    (write_to_env_file (["# c\n".py, "HTTPS_DOMAIN=x\n".py]) ("d.org".py) ("a@b".py)).length
        = (["# c\n".py, "HTTPS_DOMAIN=x\n".py] : List PyStr).length
  ∧ (write_to_env_file (["# c\n".py, "HTTPS_DOMAIN=x\n".py]) ("d.org".py) ("a@b".py))[0]?
        = some ("# c\n".py) :=
  ⟨(C6_write_frame (["# c\n".py, "HTTPS_DOMAIN=x\n".py]) ("d.org".py) ("a@b".py) 0).1,
   (C6_write_frame (["# c\n".py, "HTTPS_DOMAIN=x\n".py]) ("d.org".py) ("a@b".py) 0).2
     ("# c\n".py) (by decide) (by decide) (by decide)⟩

/-! ## Prompt decisions of the Interactive Configuration Flow

Each yes/no prompt in the script turns the raw console answer into a
decision.  `none` models an uncaught `IndexError` from indexing `[0]` into
an empty stripped string. -/

/-- The enforce-HTTPS prompt body (one loop iteration): empty input becomes
`"y"`, then the first character of `answer.lower().strip()` is examined;
`some (some b)` is a decision, `some none` re-prompts, `none` is the
`IndexError` raised by `[0]` on an empty stripped string. -/
def enforceStep (s : PyStr) : Option (Option Bool) :=
  let s := if s == [] then "y".py else s
  match (pyStrip (pyLower s)).head? with
  | none => none
  | some c =>
    if c == 'y'.toNat then some (some true)
    else if c == 'n'.toNat then some (some false)
    else some none

/-- Result of the `while True` enforce-HTTPS loop. -/
inductive EnfRes
  | crash
  | eof
  | val (yes : Bool)
deriving DecidableEq, Repr

/-- The `while True` loop around the enforce-HTTPS prompt, consuming console
inputs until an answer decides, crashes, or the input is exhausted
(`EOFError`). -/
def enforceLoop : List PyStr → EnfRes × List PyStr
  | [] => (.eof, [])
  | s :: rest =>
    match enforceStep s with
    | none => (.crash, rest)
    | some (some b) => (.val b, rest)
    | some none => enforceLoop rest

/-- The insecure-override prompt: empty input becomes `"n"`, then
`insecure.lower().strip()[0] != "y"` raises the fatal `RuntimeError`.
`some true` means the override was granted. -/
def insecureDecision (s : PyStr) : Option Bool :=
  let s := if s == [] then "n".py else s
  ((pyStrip (pyLower s)).head?).map (fun c => c == 'y'.toNat)

/-- The domain-ready prompt of the Let's Encrypt branch: empty input becomes
`"y"`, then `proceed.strip().lower()[0] != "y"` aborts with `exit(1)`. -/
def proceedDecision (s : PyStr) : Option Bool :=
  let s := if s == [] then "y".py else s
  ((pyLower (pyStrip s)).head?).map (fun c => c == 'y'.toNat)

/-- The self-signed fallback prompt of the Let's Encrypt branch:
`use_self_signed == "" or use_self_signed.lower().strip()[0] == "y"`. -/
def fallbackDecision (s : PyStr) : Option Bool :=
  if s == [] then some true
  else ((pyStrip (pyLower s)).head?).map (fun c => c == 'y'.toNat)

/-- The custom-LDAP-password prompt: the whole stripped lowered answer is
compared with `"y"`. -/
def useCustomPasswordYes (s : PyStr) : Bool :=
  pyStrip (pyLower s) == "y".py

/-- The port-80-busy continuation prompt of the Let's Encrypt branch:
`continue_anyway.lower().strip() != "y"` aborts. -/
def continueAnywayYes (s : PyStr) : Bool :=
  pyStrip (pyLower s) == "y".py

/-- The retry prompt of `run_docker_builds` and `run_sync_endpoint_build`:
`retry.lower().strip() != "y"` exits. -/
def retryYes (s : PyStr) : Bool :=
  pyStrip (pyLower s) == "y".py

/-- Modelled from the spec: the claimed uniform yes/no rule — decide by the
first character of the answer, case-insensitively, empty input selecting
the bracketed default. -/
def specFirstCharYes (dflt : Bool) (s : PyStr) : Option Bool :=
  if s == [] then some dflt
  else ((pyStrip (pyLower s)).head?).map (fun c => c == 'y'.toNat)

/-- C4 counterexample: the custom-LDAP-password prompt (bracketed default
`N`) does not decide by the first character: on the answer `yes` the
first-character rule says yes, but the script compares the whole stripped
string with `"y"` and decides no. -/
theorem C4_first_char_counterexample :
    specFirstCharYes false ("yes".py) = some true
  ∧ useCustomPasswordYes ("yes".py) = false := by
  decide

/-- C4 amended: the enforce-HTTPS, insecure-override, domain-ready and
self-signed-fallback prompts decide by the first character of the
lowercased stripped input with the empty input selecting the bracketed
default, but the custom-LDAP-password, port-80-continuation and
build-retry prompts instead compare the whole lowercased stripped input
with `"y"` (their bracketed default `N` coincides with what the empty
input yields there). -/
theorem C4_first_char_amended :
    (∀ s b, enforceStep s = some (some b) → specFirstCharYes true s = some b)
  ∧ (∀ s, insecureDecision s = specFirstCharYes false s)
  ∧ (∀ s, proceedDecision s = specFirstCharYes true s)
  ∧ (∀ s, fallbackDecision s = specFirstCharYes true s)
  ∧ (∀ s, useCustomPasswordYes s = (pyStrip (pyLower s) == "y".py))
  ∧ (∀ s, continueAnywayYes s = (pyStrip (pyLower s) == "y".py))
  ∧ (∀ s, retryYes s = (pyStrip (pyLower s) == "y".py))
  ∧ useCustomPasswordYes [] = false ∧ continueAnywayYes [] = false := by
  refine ⟨?_, ?_, ?_, ?_, fun s => rfl, fun s => rfl, fun s => rfl, by decide, by decide⟩
  · intro s b h
    by_cases hs : s == []
    · have hse : s = [] := by simpa using hs
      subst hse
      have h2 : (some (some true) : Option (Option Bool)) = some (some b) := h
      have hb : b = true := by simpa using h2.symm
      subst hb
      decide
    · simp only [enforceStep, hs, Bool.false_eq_true, if_false] at h
      simp only [specFirstCharYes, hs, Bool.false_eq_true, if_false]
      rcases hh : (pyStrip (pyLower s)).head? with _ | c
      · rw [hh] at h; exact absurd h (by simp)
      · rw [hh] at h
        have h3 : (if c == 'y'.toNat then some (some true)
            else if c == 'n'.toNat then some (some false)
            else (some none : Option (Option Bool))) = some (some b) := h
        show some (c == 'y'.toNat) = some b
        by_cases hy : c == 'y'.toNat
        · rw [if_pos hy] at h3
          simp only [Option.some.injEq] at h3
          rw [← h3, hy]
        · rw [if_neg hy] at h3
          by_cases hn : c == 'n'.toNat
          · rw [if_pos hn] at h3
            simp only [Option.some.injEq] at h3
            rw [← h3]
            have hyf : (c == 'y'.toNat) = false := by
              simpa using hy
            rw [hyf]
          · rw [if_neg hn] at h3
            exact absurd h3 (by simp)
  · intro s
    by_cases hs : s == []
    · have : s = [] := by simpa using hs
      subst this; decide
    · simp only [insecureDecision, specFirstCharYes, hs, Bool.false_eq_true, if_false]
  · intro s
    by_cases hs : s == []
    · have : s = [] := by simpa using hs
      subst this; decide
    · simp only [proceedDecision, specFirstCharYes, hs, Bool.false_eq_true, if_false]
      rw [pyLower_pyStrip]
  · intro s
    by_cases hs : s == []
    · have : s = [] := by simpa using hs
      subst this; decide
    · simp only [fallbackDecision, specFirstCharYes, hs, Bool.false_eq_true, if_false]

/-- C4 witness: the amended statement at concrete answers. -/
theorem C4_first_char_amended_witness :
    specFirstCharYes true ("No".py) = some false
  ∧ insecureDecision ("YES".py) = specFirstCharYes false ("YES".py) :=
  ⟨C4_first_char_amended.1 ("No".py) false (by decide),
   C4_first_char_amended.2.1 ("YES".py)⟩

/-- C10: a whitespace-only answer (here a single space) at the
enforce-HTTPS prompt makes `answer.lower().strip()[0]` index an empty
string: the loop neither decides nor re-prompts but raises `IndexError`
(leaving the remaining input unread); the same first-character pattern at
the insecure-override, domain-ready and self-signed-fallback prompts
crashes on the same input. -/
theorem C10_whitespace_crash :
    (∀ rest : List PyStr, enforceLoop (" ".py :: rest) = (.crash, rest))
  ∧ insecureDecision (" ".py) = none
  ∧ proceedDecision (" ".py) = none
  ∧ fallbackDecision (" ".py) = none := by
  refine ⟨fun rest => ?_, by decide, by decide, by decide⟩
  rfl

/-! ## Certificate staging: directories as name-to-mode association lists -/

def fullchainN : PyStr := "fullchain.pem".py
def privkeyN : PyStr := "privkey.pem".py

/-- `os.path.exists` for a file of a modelled directory. -/
def hasFile (d : List (PyStr × Nat)) (n : PyStr) : Bool :=
  d.any (fun p => p.1 == n)

/-- Create-or-overwrite a file with the given permission mode
(`shutil.copy2`/`os.chmod` net effect on the name-mode view). -/
def setFile (d : List (PyStr × Nat)) (n : PyStr) (m : Nat) : List (PyStr × Nat) :=
  if hasFile d n then d.map (fun p => if p.1 == n then (n, m) else p)
  else d ++ [(n, m)]

/-- Mode of a file, if present. -/
def fileMode (d : List (PyStr × Nat)) (n : PyStr) : Option Nat :=
  (d.find? (fun p => p.1 == n)).map (fun p => p.2)

/-- `copy_existing_certificates`: for each of `fullchain.pem` and
`privkey.pem` (in that order), if the source has it, copy it into the
target and `chmod` it to `0o600`; a missing source file only warns. -/
def copy_existing_certificates (src tgt : List (PyStr × Nat)) :
    List (PyStr × Nat) :=
  let tgt := if hasFile src fullchainN then setFile tgt fullchainN 0o600 else tgt
  if hasFile src privkeyN then setFile tgt privkeyN 0o600 else tgt

/-- `create_self_signed_cert`: when the `openssl` invocation succeeds the
certificate directory gains `privkey.pem` (chmod `0o600`) and
`fullchain.pem` (chmod `0o644`) and the function returns the new
directory; a failing invocation returns `none` (the function returns
`False`). -/
def create_self_signed_cert (ok : Bool) (dir : List (PyStr × Nat)) :
    Option (List (PyStr × Nat)) :=
  if ok then some (setFile (setFile dir privkeyN 0o600) fullchainN 0o644)
  else none

/-! ## The interactive flow -/

/-- Externally visible actions of the flow, in program order. -/
inductive Ev
  | ldapSet
  | portCheck
  | promptContinue
  | promptFallback
  | copyCerts
  | selfSigned
  | certbot
  | leStage
  | writeEnv
  | dockerBuilds
  | syncBuild
  | deploy
deriving DecidableEq, Repr

/-- Results of the external commands the script shells out to. -/
structure Env where
  port80Busy : Bool
  opensslOk : Bool
  certbotProduces : Bool
deriving DecidableEq, Repr

/-- The file-system state the flow manipulates: `/etc/ssl/odkx`, the target
`../certs` directory, and whether `ldap.env` exists. -/
structure FS where
  sslDir : List (PyStr × Nat)
  certsDir : List (PyStr × Nat)
  ldapEnvExists : Bool
deriving DecidableEq, Repr

/-- How `run_interactive_config` ends: a normal return of the
enforce-HTTPS flag, a Python exception escaping it (`RuntimeError`,
`IndexError` or `EOFError`, all caught by `__main__` which then exits
with status 1), or a direct `exit(code)` (`SystemExit`, not caught by the
`except Exception` handler in `__main__`). -/
inductive CfgOut
  | ret (enforce : Bool)
  | exn
  | exitNow (code : Nat)
deriving DecidableEq, Repr

/-- Result of (a stage of) `run_interactive_config`: accumulated events,
file-system state, outcome, and the console input not yet consumed. -/
structure Res where
  evs : List Ev
  fs : FS
  out : CfgOut
  rest : List PyStr
deriving DecidableEq, Repr

/-- The optional custom-LDAP-password step: consumes the answer to the
custom-password prompt and, when it is `y`, the password itself; a
non-empty password is written to `ldap.env` (replacing the
`LDAP_ADMIN_PASSWORD` line if the file exists, creating the file
otherwise).  `none` models `EOFError` at the password prompt. -/
def ldapStep (fs : FS) (pw : PyStr) (tail : List PyStr) :
    Option (FS × List Ev × List PyStr) :=
  if useCustomPasswordYes pw then
    match tail with
    | [] => none
    | pwd :: rest =>
      if pwd == [] then some (fs, [], rest)
      else if fs.ldapEnvExists then some (fs, [Ev.ldapSet], rest)
      else some ({ fs with ldapEnvExists := true }, [Ev.ldapSet], rest)
  else some (fs, [], tail)

/-- The tail of the Let's Encrypt branch, from the `certbot` invocation on:
the script checks whether `/etc/letsencrypt/live/bootstrap/fullchain.pem`
now exists; if so it stages the certificates into `../certs` with modes
`0o644`/`0o600`; otherwise it offers the self-signed fallback, whose
refusal or failure exits with status 1. -/
def afterPortCheck (env : Env) (fs : FS) (evs : List Ev)
    (domain email : PyStr) (inputs : List PyStr) : Res :=
  let evs := evs ++ [Ev.certbot]
  if env.certbotProduces then
    let fs2 := { fs with
      certsDir := setFile (setFile fs.certsDir fullchainN 0o644) privkeyN 0o600 }
    ⟨evs ++ [Ev.leStage, Ev.writeEnv], fs2, .ret true, inputs⟩
  else
    match inputs with
    | [] => ⟨evs ++ [Ev.promptFallback], fs, .exn, []⟩
    | fb :: inputs =>
      let evs := evs ++ [Ev.promptFallback]
      match fallbackDecision fb with
      | none => ⟨evs, fs, .exn, inputs⟩
      | some false => ⟨evs, fs, .exitNow 1, inputs⟩
      | some true =>
        match create_self_signed_cert env.opensslOk fs.sslDir with
        | some ssl =>
          let fs2 := { fs with sslDir := ssl }
          let fs3 := { fs2 with
            certsDir := copy_existing_certificates fs2.sslDir fs2.certsDir }
          ⟨evs ++ [Ev.selfSigned, Ev.copyCerts, Ev.writeEnv], fs3, .ret true, inputs⟩
        | none => ⟨evs ++ [Ev.selfSigned], fs, .exitNow 1, inputs⟩

/-- The Let's Encrypt (`else`) branch of the certificate-strategy choice:
admin-email prompt, domain-ready prompt (`exit(1)` unless it resolves to
yes), `lsof` port-80 check, the continuation prompt when the port is busy
(`exit(1)` unless the answer is exactly `y` after strip/lower), then
`afterPortCheck`. -/
def letsEncryptStage (env : Env) (fs : FS) (evs : List Ev)
    (domain email : PyStr) (inputs : List PyStr) : Res :=
  match inputs with
  | [] => ⟨evs, fs, .exn, []⟩
  | em :: inputs =>
    let email := if em == [] then email else em
    match inputs with
    | [] => ⟨evs, fs, .exn, []⟩
    | pr :: inputs =>
      match proceedDecision pr with
      | none => ⟨evs, fs, .exn, inputs⟩
      | some false => ⟨evs, fs, .exitNow 1, inputs⟩
      | some true =>
        let evs := evs ++ [Ev.portCheck]
        if env.port80Busy then
          match inputs with
          | [] => ⟨evs ++ [Ev.promptContinue], fs, .exn, []⟩
          | ca :: inputs =>
            let evs := evs ++ [Ev.promptContinue]
            if continueAnywayYes ca then
              afterPortCheck env fs evs domain email inputs
            else ⟨evs, fs, .exitNow 1, inputs⟩
        else
          afterPortCheck env fs evs domain email inputs

/-- The HTTPS-configuration block: the strategy choice (empty answer
defaults to `2`), then one of: copy existing certificates (choice `1`),
create-and-stage self-signed certificates (choice `2`, `exit(1)` on
generation failure), or the Let's Encrypt branch (any other answer);
every successful branch then saves the config file (`writeEnv`). -/
def httpsStage (env : Env) (fs : FS) (evs : List Ev)
    (domain email : PyStr) (inputs : List PyStr) : Res :=
  match inputs with
  | [] => ⟨evs, fs, .exn, []⟩
  | c :: inputs =>
    let choice := if c == [] then "2".py else c
    if choice == "1".py then
      let fs2 := { fs with
        certsDir := copy_existing_certificates fs.sslDir fs.certsDir }
      ⟨evs ++ [Ev.copyCerts, Ev.writeEnv], fs2, .ret true, inputs⟩
    else if choice == "2".py then
      match inputs with
      | [] => ⟨evs, fs, .exn, []⟩
      | em :: inputs =>
        let email := if em == [] then email else em
        match create_self_signed_cert env.opensslOk fs.sslDir with
        | some ssl =>
          let fs2 := { fs with sslDir := ssl }
          let fs3 := { fs2 with
            certsDir := copy_existing_certificates fs2.sslDir fs2.certsDir }
          ⟨evs ++ [Ev.selfSigned, Ev.copyCerts, Ev.writeEnv], fs3, .ret true, inputs⟩
        | none => ⟨evs ++ [Ev.selfSigned], fs, .exitNow 1, inputs⟩
    else
      letsEncryptStage env fs evs domain email inputs

/-- The flow from the enforce-HTTPS loop on: `n` leads to the
insecure-override prompt, where anything but a `y` first character raises
the fatal `RuntimeError` (and a whitespace-only answer raises
`IndexError`); `y` enters the HTTPS-configuration block. -/
def afterLdap (env : Env) (fs : FS) (evs : List Ev)
    (domain email : PyStr) (inputs : List PyStr) : Res :=
  match enforceLoop inputs with
  | (.eof, rest) => ⟨evs, fs, .exn, rest⟩
  | (.crash, rest) => ⟨evs, fs, .exn, rest⟩
  | (.val false, rest) =>
    match rest with
    | [] => ⟨evs, fs, .exn, []⟩
    | ins :: rest =>
      match insecureDecision ins with
      | none => ⟨evs, fs, .exn, rest⟩
      | some true => ⟨evs, fs, .ret false, rest⟩
      | some false => ⟨evs, fs, .exn, rest⟩
  | (.val true, rest) => httpsStage env fs evs domain email rest

/-- `run_interactive_config`, starting after the config file has been read
or created (`domain0`/`email0` are the values it produced): domain prompt,
optional LDAP-password step, then `afterLdap`. -/
def runInteractiveConfig (env : Env) (fs : FS) (domain0 email0 : PyStr)
    (inputs : List PyStr) : Res :=
  match inputs with
  | [] => ⟨[], fs, .exn, []⟩
  | inputDomain :: inputs =>
    let domain := if inputDomain == [] then domain0 else inputDomain
    match inputs with
    | [] => ⟨[], fs, .exn, []⟩
    | pw :: inputs =>
      match ldapStep fs pw inputs with
      | none => ⟨[], fs, .exn, []⟩
      | some (fs1, evs1, inputs) => afterLdap env fs1 evs1 domain email0 inputs

/-- The retry gate shared by `run_docker_builds` and
`run_sync_endpoint_build`: a successful build continues; a failed one asks
for a retry answer and exits (or propagates `EOFError`, again ending the
process with status 1, modelled alike as `none`) unless it is `y`. -/
def buildGate (ok : Bool) (inputs : List PyStr) : Option (List PyStr) :=
  if ok then some inputs
  else
    match inputs with
    | [] => none
    | s :: rest => if retryYes s then some rest else none

/-- `__main__`: run the interactive configuration (an escaping exception
prints and exits 1; `SystemExit` keeps its code), then the Docker builds,
the sync-endpoint build and the stack deployment; a deployment failure
exits 1, full success ends with status 0. -/
def mainModel (env : Env) (fs : FS) (domain0 email0 : PyStr)
    (inputs : List PyStr) (dockerOk syncOk deployOk : Bool) :
    List Ev × Nat :=
  let r := runInteractiveConfig env fs domain0 email0 inputs
  match r.out with
  | .exn => (r.evs, 1)
  | .exitNow c => (r.evs, c)
  | .ret enforce =>
    let evs := r.evs ++ [Ev.dockerBuilds]
    match buildGate dockerOk r.rest with
    | none => (evs, 1)
    | some rest1 =>
      let evs := evs ++ [Ev.syncBuild]
      match buildGate syncOk rest1 with
      | none => (evs, 1)
      | some rest2 =>
        let evs := evs ++ [Ev.deploy]
        if deployOk then (evs, 0) else (evs, 1)

example :
    mainModel ⟨false, true, false⟩ ⟨[], [], false⟩ ("localhost".py)
      ("admin@example.com".py) [[], [], "y".py, "2".py, []] true true true =
    ([Ev.selfSigned, Ev.copyCerts, Ev.writeEnv, Ev.dockerBuilds, Ev.syncBuild,
      Ev.deploy], 0) := by decide

example :
    mainModel ⟨false, true, false⟩ ⟨[], [], false⟩ ("localhost".py)
      ("admin@example.com".py) [[], [], "n".py, []] true true true =
    ([], 1) := by decide

/-! ## Lemmas about the directory operations -/

lemma setFile_pred (n n2 : PyStr) (m : Nat) :
    ((fun p : PyStr × Nat => p.1 == n2) ∘
      (fun p : PyStr × Nat => if p.1 == n then (n, m) else p)) =
      (fun p : PyStr × Nat => p.1 == n2) := by
  funext p
  simp only [Function.comp]
  by_cases hp : p.1 == n
  · have hpe : p.1 = n := by simpa using hp
    simp [hp, hpe]
  · simp [hp]

lemma any_setFile_map (d : List (PyStr × Nat)) (n n2 : PyStr) (m : Nat) :
    (d.map (fun p => if p.1 == n then (n, m) else p)).any
        (fun p => p.1 == n2) = d.any (fun p => p.1 == n2) := by
  rw [List.any_map, setFile_pred]

lemma find?_setFile_map (d : List (PyStr × Nat)) (n n2 : PyStr) (m : Nat) :
    List.find? (fun p => p.1 == n2)
        (d.map (fun p => if p.1 == n then (n, m) else p)) =
      (List.find? (fun p => p.1 == n2) d).map
        (fun p => if p.1 == n then (n, m) else p) := by
  rw [List.find?_map, setFile_pred]

lemma hasFile_setFile_self (d : List (PyStr × Nat)) (n : PyStr) (m : Nat) :
    hasFile (setFile d n m) n = true := by
  unfold setFile
  split
  · rename_i h
    unfold hasFile
    rw [any_setFile_map]
    exact h
  · unfold hasFile
    rw [List.any_append]
    simp

lemma hasFile_setFile_other (d : List (PyStr × Nat)) (n n2 : PyStr) (m : Nat)
    (hne : (n == n2) = false) :
    hasFile (setFile d n m) n2 = hasFile d n2 := by
  unfold setFile
  split
  · unfold hasFile
    rw [any_setFile_map]
  · unfold hasFile
    rw [List.any_append]
    simp [hne]

lemma fileMode_setFile_self (d : List (PyStr × Nat)) (n : PyStr) (m : Nat) :
    fileMode (setFile d n m) n = some m := by
  unfold setFile
  split
  · rename_i h
    unfold fileMode
    rw [find?_setFile_map]
    have hsome : (List.find? (fun q => q.1 == n) d).isSome := by
      rw [List.find?_isSome]
      unfold hasFile at h
      rw [List.any_eq_true] at h
      exact h
    rcases hf : List.find? (fun q => q.1 == n) d with _ | p
    · rw [hf] at hsome; simp at hsome
    · have hpn := List.find?_some hf
      simp only at hpn
      rw [hf]
      have hpe : p.1 = n := by simpa using hpn
      simp [hpe]
  · unfold fileMode
    rw [List.find?_append]
    have hnone : List.find? (fun q : PyStr × Nat => q.1 == n) d = none := by
      rw [List.find?_eq_none]
      intro x hx hpx
      rename_i h
      exact h (by unfold hasFile; rw [List.any_eq_true]; exact ⟨x, hx, hpx⟩)
    rw [hnone]
    simp

lemma fileMode_setFile_other (d : List (PyStr × Nat)) (n n2 : PyStr) (m : Nat)
    (hne : (n == n2) = false) :
    fileMode (setFile d n m) n2 = fileMode d n2 := by
  unfold setFile
  split
  · unfold fileMode
    rw [find?_setFile_map]
    rcases hf : List.find? (fun q : PyStr × Nat => q.1 == n2) d with _ | p
    · simp
    · have hpn2 := List.find?_some hf
      simp only at hpn2
      have hp1 : p.1 = n2 := by simpa using hpn2
      have hpn : (p.1 == n) = false := by
        rw [hp1]
        have h3 : ¬n = n2 := by simpa using hne
        simpa using fun h2 => h3 h2.symm
      simp [hpn]
      rw [if_neg (show ¬p.1 = n by simpa using hpn)]
  · unfold fileMode
    rw [List.find?_append]
    have hl : List.find? (fun q : PyStr × Nat => q.1 == n2) [(n, m)] = none := by
      simp [hne]
    rw [hl]
    simp

/-! ## C1: refusing HTTPS without the insecure override halts the program -/

lemma ldapStep_evs (fs : FS) (pw : PyStr) (tail : List PyStr)
    (r : FS × List Ev × List PyStr) (h : ldapStep fs pw tail = some r) :
    r.2.1 = [] ∨ r.2.1 = [Ev.ldapSet] := by
  unfold ldapStep at h
  split at h
  · split at h
    · exact Option.noConfusion h
    · split at h
      · cases h; left; rfl
      · split at h
        · cases h; right; rfl
        · cases h; right; rfl
  · cases h; left; rfl

/-- C1: when the enforce-HTTPS prompt resolves to `n` and the
insecure-override answer does not resolve to yes, the program ends with
exit status 1 (the `RuntimeError` — or the `IndexError` on a
whitespace-only answer — is caught by `__main__`, which exits 1), and the
trace contains no certificate, build or deployment action (at most the
LDAP password write). -/
theorem C1_refusal_halts (env : Env) (fs fs1 : FS) (evs1 : List Ev)
    (d0 e0 i1 pw ins : PyStr) (tail en rest2 : List PyStr)
    (dockerOk syncOk deployOk : Bool)
    (h1 : ldapStep fs pw tail = some (fs1, evs1, en))
    (h2 : enforceLoop en = (.val false, ins :: rest2))
    (h3 : insecureDecision ins ≠ some true) :
    mainModel env fs d0 e0 (i1 :: pw :: tail) dockerOk syncOk deployOk = (evs1, 1)
  ∧ (evs1 = [] ∨ evs1 = [Ev.ldapSet]) := by
  refine ⟨?_, ldapStep_evs fs pw tail (fs1, evs1, en) h1⟩
  simp only [mainModel, runInteractiveConfig, h1, afterLdap, h2]
  rcases hd : insecureDecision ins with _ | b
  · rfl
  · cases b
    · rfl
    · exact absurd hd h3

/-- C1 witness: pressing enter twice, answering `n`, then enter (default
`N`) at the override prompt ends the run with status 1 and an empty trace. -/
theorem C1_refusal_halts_witness :
    mainModel ⟨false, false, false⟩ ⟨[], [], false⟩ ("localhost".py)
        ("admin@example.com".py) [[], [], "n".py, []] true true true = ([], 1)
  ∧ (([] : List Ev) = [] ∨ ([] : List Ev) = [Ev.ldapSet]) :=
  C1_refusal_halts ⟨false, false, false⟩ ⟨[], [], false⟩ ⟨[], [], false⟩ []
    ("localhost".py) ("admin@example.com".py) [] [] [] ["n".py, []]
    ["n".py, []] [] true true true (by decide) (by decide) (by decide)

/-! ## C3: what the self-signed strategy leaves in the target directory -/

/-- C3 amended: with the self-signed strategy (explicit `2` or the empty
default) and a successful generation command, the flow stages
`fullchain.pem` and `privkey.pem` into the target certs directory — but
`copy_existing_certificates` chmods **both** staged files to `0o600`, so
the chain file ends at mode `0o600`, not `0o644` (the `0o644` chain mode
exists only in the intermediate `/etc/ssl/odkx` directory); when the
target directory starts empty it ends with exactly these two files. -/
theorem C3_self_signed_modes_amended (env : Env) (fs : FS) (evs : List Ev)
    (domain email c em : PyStr) (inputs : List PyStr)
    (hc : (if c == [] then "2".py else c) = "2".py)
    (hok : env.opensslOk = true) :
    fileMode (httpsStage env fs evs domain email (c :: em :: inputs)).fs.certsDir
        fullchainN = some 0o600
  ∧ fileMode (httpsStage env fs evs domain email (c :: em :: inputs)).fs.certsDir
        privkeyN = some 0o600
  ∧ (fs.certsDir = [] →
      (httpsStage env fs evs domain email (c :: em :: inputs)).fs.certsDir =
        [(fullchainN, 0o600), (privkeyN, 0o600)])
  ∧ (httpsStage env fs evs domain email (c :: em :: inputs)).out = .ret true := by
  have h21 : ("2".py == "1".py) = false := by decide
  have h22 : ("2".py == "2".py) = true := by decide
  have hr : httpsStage env fs evs domain email (c :: em :: inputs) =
      ⟨evs ++ [Ev.selfSigned, Ev.copyCerts, Ev.writeEnv],
       ⟨setFile (setFile fs.sslDir privkeyN 0o600) fullchainN 0o644,
        copy_existing_certificates
          (setFile (setFile fs.sslDir privkeyN 0o600) fullchainN 0o644)
          fs.certsDir,
        fs.ldapEnvExists⟩,
       .ret true, inputs⟩ := by
    simp only [httpsStage, hc, h21, h22, Bool.false_eq_true, if_false, if_true,
      create_self_signed_cert, hok]
  rw [hr]
  have hfp : (fullchainN == privkeyN) = false := by decide
  have hpf : (privkeyN == fullchainN) = false := by decide
  have hfull : hasFile (setFile (setFile fs.sslDir privkeyN 0o600)
      fullchainN 0o644) fullchainN = true := hasFile_setFile_self _ _ _
  have hpriv : hasFile (setFile (setFile fs.sslDir privkeyN 0o600)
      fullchainN 0o644) privkeyN = true := by
    rw [hasFile_setFile_other _ _ _ _ hfp]
    exact hasFile_setFile_self _ _ _
  have hcopy : copy_existing_certificates
      (setFile (setFile fs.sslDir privkeyN 0o600) fullchainN 0o644)
      fs.certsDir =
        setFile (setFile fs.certsDir fullchainN 0o600) privkeyN 0o600 := by
    unfold copy_existing_certificates
    rw [hfull, hpriv]
    simp
  refine ⟨?_, ?_, ?_, rfl⟩
  · show fileMode (copy_existing_certificates _ _) fullchainN = some 0o600
    rw [hcopy, fileMode_setFile_other _ _ _ _ hpf, fileMode_setFile_self]
  · show fileMode (copy_existing_certificates _ _) privkeyN = some 0o600
    rw [hcopy, fileMode_setFile_self]
  · intro hempty
    show copy_existing_certificates _ _ = _
    rw [hcopy, hempty]
    decide

/-- C3 witness: the amended staging facts at a concrete run. -/
theorem C3_self_signed_modes_amended_witness :
    (httpsStage ⟨false, true, false⟩ ⟨[], [], false⟩ [] ("d.org".py) ("a@b".py)
      ["2".py, []]).out = .ret true :=
  (C3_self_signed_modes_amended ⟨false, true, false⟩ ⟨[], [], false⟩ []
    ("d.org".py) ("a@b".py) ("2".py) [] [] (by decide) rfl).2.2.2

/-- C3 counterexample: in a concrete successful self-signed run into an
empty target directory the staged chain file has mode `0o600`, not the
claimed `0o644`. -/
theorem C3_self_signed_modes_counterexample :
    fileMode (httpsStage ⟨false, true, false⟩ ⟨[], [], false⟩ [] ("d.org".py)
        ("a@b".py) ["2".py, []]).fs.certsDir fullchainN = some 0o600
  ∧ fileMode (httpsStage ⟨false, true, false⟩ ⟨[], [], false⟩ [] ("d.org".py)
        ("a@b".py) ["2".py, []]).fs.certsDir fullchainN ≠ some 0o644 := by
  decide

/-! ## C7 and C8: the Let's Encrypt branch -/

/-- C7: in the Let's Encrypt branch, when `lsof` reports port 80 in use the
flow prompts for continuation, and an answer that does not resolve to yes
ends the process with exit status 1 without the `certbot` invocation ever
appearing in the trace. -/
theorem C7_port_busy_abort (env : Env) (fs fs1 : FS) (evs1 : List Ev)
    (d0 e0 i1 pw c em pr ca : PyStr) (tail en rest : List PyStr)
    (dockerOk syncOk deployOk : Bool)
    (h1 : ldapStep fs pw tail = some (fs1, evs1, en))
    (h2 : enforceLoop en = (.val true, c :: em :: pr :: ca :: rest))
    (hc1 : ((if c == [] then "2".py else c) == "1".py) = false)
    (hc2 : ((if c == [] then "2".py else c) == "2".py) = false)
    (hpr : proceedDecision pr = some true)
    (hbusy : env.port80Busy = true)
    (hca : continueAnywayYes ca = false) :
    mainModel env fs d0 e0 (i1 :: pw :: tail) dockerOk syncOk deployOk =
      (evs1 ++ [Ev.portCheck, Ev.promptContinue], 1)
  ∧ Ev.certbot ∉ evs1 ++ [Ev.portCheck, Ev.promptContinue] := by
  constructor
  · simp only [mainModel, runInteractiveConfig, h1, afterLdap, h2, httpsStage,
      hc1, hc2, Bool.false_eq_true, if_false, letsEncryptStage, hpr, hbusy,
      if_true, hca]
    simp
  · rcases ldapStep_evs fs pw tail (fs1, evs1, en) h1 with h | h <;>
      simp only at h <;> simp [h]

/-- C7 witness: a concrete run — strategy `3`, port 80 busy, declining the
continuation — exits 1 with only the port check and the prompt in the
trace. -/
theorem C7_port_busy_abort_witness :
    mainModel ⟨true, false, false⟩ ⟨[], [], false⟩ ("localhost".py)
        ("admin@example.com".py)
        [[], [], "y".py, "3".py, [], "y".py, "n".py] true true true =
      (([] : List Ev) ++ [Ev.portCheck, Ev.promptContinue], 1)
  ∧ Ev.certbot ∉ ([] : List Ev) ++ [Ev.portCheck, Ev.promptContinue] :=
  C7_port_busy_abort ⟨true, false, false⟩ ⟨[], [], false⟩ ⟨[], [], false⟩ []
    ("localhost".py) ("admin@example.com".py) [] [] ("3".py) [] ("y".py)
    ("n".py) ["y".py, "3".py, [], "y".py, "n".py]
    ["y".py, "3".py, [], "y".py, "n".py] [] true true true
    (by decide) (by decide) (by decide) (by decide) (by decide) rfl (by decide)

/-- C8: after the issuance command has run, the branch checks whether the
expected certificate path exists; when it does not, the self-signed
fallback is offered (`promptFallback` is in the trace in every case), and
both declining the fallback and a failing fallback generation make
`run_interactive_config` end in `exit(1)`; an `exit(1)` outcome of the
flow always gives the whole program exit status 1. -/
theorem C8_certbot_verify_fallback (env : Env) (fs : FS) (evs : List Ev)
    (domain email fb : PyStr) (inputs : List PyStr)
    (hmiss : env.certbotProduces = false) :
    Ev.promptFallback ∈ (afterPortCheck env fs evs domain email (fb :: inputs)).evs
  ∧ (fallbackDecision fb = some false →
      (afterPortCheck env fs evs domain email (fb :: inputs)).out = .exitNow 1)
  ∧ (fallbackDecision fb = some true → env.opensslOk = false →
      (afterPortCheck env fs evs domain email (fb :: inputs)).out = .exitNow 1)
  ∧ (∀ (env2 : Env) (fs2 : FS) (d2 e2 : PyStr) (inp : List PyStr)
        (dOk sOk depOk : Bool),
      (runInteractiveConfig env2 fs2 d2 e2 inp).out = .exitNow 1 →
      (mainModel env2 fs2 d2 e2 inp dOk sOk depOk).2 = 1) := by
  refine ⟨?_, ?_, ?_, ?_⟩
  · simp only [afterPortCheck, hmiss, Bool.false_eq_true, if_false]
    rcases hd : fallbackDecision fb with _ | b
    · simp
    · cases b
      · simp
      · rcases hcs : create_self_signed_cert env.opensslOk fs.sslDir with _ | ssl
        · simp
        · simp
  · intro h
    simp only [afterPortCheck, hmiss, Bool.false_eq_true, if_false, h]
  · intro h hko
    simp only [afterPortCheck, hmiss, Bool.false_eq_true, if_false, h,
      create_self_signed_cert, hko]
  · intro env2 fs2 d2 e2 inp dOk sOk depOk hout
    simp only [mainModel]
    rw [hout]

/-- C8 witness: a concrete declined fallback exits with status 1. -/
theorem C8_certbot_verify_fallback_witness :
    (afterPortCheck ⟨false, false, false⟩ ⟨[], [], false⟩ [] ("d.org".py)
      ("a@b".py) ["n".py]).out = .exitNow 1 :=
  (C8_certbot_verify_fallback ⟨false, false, false⟩ ⟨[], [], false⟩ []
    ("d.org".py) ("a@b".py) ("n".py) [] rfl).2.1 (by decide)

/-! ## C9: the `replaceInFile` pattern-replace operation

`replaceInFile` writes per-line substituted content to a `mkstemp` file,
copies the original's permission mode onto it (`copymode`), then
`remove`s the original and `move`s the temporary over its path.  The
observable states of the two paths between these steps are modelled as a
list; each entry is (content-lines, mode) or absent.  The per-line
`re.sub` substitution is abstracted as a function on lines. -/

structure RState where
  orig : Option (List PyStr × Nat)
  tmp : Option (List PyStr × Nat)
deriving DecidableEq, Repr

/-- The successive observable states of `replaceInFile` on a file holding
`content` with permission `mode` (the fresh temporary starts empty with
`mkstemp`'s own mode `tmpMode`): after creating the temporary, after
writing the substituted lines, after `copymode`, after `remove`, and
after `move`. -/
def replaceInFile_states (sub : PyStr → PyStr) (content : List PyStr)
    (mode tmpMode : Nat) : List RState :=
  [⟨some (content, mode), some ([], tmpMode)⟩,
   ⟨some (content, mode), some (content.map sub, tmpMode)⟩,
   ⟨some (content, mode), some (content.map sub, mode)⟩,
   ⟨none, some (content.map sub, mode)⟩,
   ⟨some (content.map sub, mode), none⟩]

/-- C9 counterexample: the sequence is not an atomic replacement — between
`remove` and `move` the original path holds no file at all, so the claim
that the file at the original path is always observable (with the
original permissions) fails at the state after `remove`. -/
theorem C9_replace_counterexample :
    ¬ (∀ s ∈ replaceInFile_states (fun l => l) [] 5 7, s.orig ≠ none) := by
  decide

/-- C9 amended: `replaceInFile` does write the substituted content to a
temporary file, does give that temporary the original file's mode before
the replacement, and ends with the original path holding the fully
substituted content at the original mode; at every intermediate state the
original path is either absent or holds a complete file (the untouched
original or the finished result) at the original mode — it is never
partially written, but it *is* absent in one state, because the source
`remove`s the file before `move`-ing the temporary in. -/
theorem C9_replace_amended (sub : PyStr → PyStr) (content : List PyStr)
    (mode tmpMode : Nat) :
    (replaceInFile_states sub content mode tmpMode).getLast? =
      some ⟨some (content.map sub, mode), none⟩
  ∧ (∃ s ∈ replaceInFile_states sub content mode tmpMode,
      s.tmp = some (content.map sub, mode))
  ∧ (∀ s ∈ replaceInFile_states sub content mode tmpMode,
      s.orig = none ∨ s.orig = some (content, mode) ∨
        s.orig = some (content.map sub, mode))
  ∧ (∃ s ∈ replaceInFile_states sub content mode tmpMode, s.orig = none) := by
  refine ⟨rfl, ?_, ?_, ?_⟩
  · exact ⟨⟨some (content, mode), some (content.map sub, mode)⟩, by simp [replaceInFile_states], rfl⟩
  · intro s hs
    simp only [replaceInFile_states, List.mem_cons, List.not_mem_nil, or_false] at hs
    rcases hs with rfl | rfl | rfl | rfl | rfl
    · right; left; rfl
    · right; left; rfl
    · right; left; rfl
    · left; rfl
    · right; right; rfl
  · exact ⟨⟨none, some (content.map sub, mode)⟩, by simp [replaceInFile_states], rfl⟩

/-- C9 witness: the amended facts at a concrete one-line file. -/
theorem C9_replace_amended_witness :
    (⟨none, some (["x".py].map (fun l => l), 3)⟩ : RState).orig = none ∨
    (⟨none, some (["x".py].map (fun l => l), 3)⟩ : RState).orig = some (["x".py], 3) ∨
    (⟨none, some (["x".py].map (fun l => l), 3)⟩ : RState).orig =
      some (["x".py].map (fun l => l), 3) :=
  (C9_replace_amended (fun l => l) ["x".py] 3 4).2.2.1
    ⟨none, some (["x".py].map (fun l => l), 3)⟩ (by decide)
